import Mathlib

/-!
Verification of the `cont-monitor-recursos` backend (`src/server.js`).

The backend is a small Express server exposing `/api/metrics` guarded by a
fixed-window per-IP rate limiter (`checkRateLimit` / `rateLimitMiddleware`),
a token/bypass authorization middleware (`requireApiToken`), and a
single-slot TTL cache (`metricsCache`, `CACHE_TTL`) around `calculateMetrics`.
Times are wall-clock milliseconds (`Date.now()`), modelled as `Nat`.
JavaScript numeric values (load percentages, byte counts) are modelled as
exact rationals `ℚ`; `Math.round` is `jsRound` below.  Each request handler
samples the clock once per call (`Date.now()` at the top of the handler);
the sequential model passes that single `now` to everything in the call.
-/

/-! ## Rate limiting (src/server.js lines 61-111) -/

/-- `RATE_LIMIT_WINDOW = 60000` — one minute, in milliseconds. -/
def RATE_LIMIT_WINDOW : Nat := 60000

/-- `RATE_LIMIT_MAX_REQUESTS = 100` — quota per window. -/
def RATE_LIMIT_MAX_REQUESTS : Nat := 100

/-- One entry of `rateLimitMap`: the per-client-identity admission state
(`{count, resetAt}`). The identity itself is the map key. -/
structure RateRecord where
  count : Nat
  resetAt : Nat
  deriving Repr, DecidableEq

/-- The value returned by `checkRateLimit`: `{allowed, retryAfter}`. -/
structure RLResult where
  allowed : Bool
  retryAfter : Nat
  deriving Repr, DecidableEq

/-- `checkRateLimit(req)` (src/server.js lines 76-97), acting on the record
stored for the request's identity (`rateLimitMap.get(ip)`, `none` when the
identity has no record yet) at time `now = Date.now()`.  Returns the
`{allowed, retryAfter}` result together with the record written back by
`rateLimitMap.set(ip, record)`. -/
def checkRateLimit (stored : Option RateRecord) (now : Nat) : RLResult × RateRecord :=
  let record := stored.getD { count := 0, resetAt := now + RATE_LIMIT_WINDOW }
  let record :=
    if record.resetAt ≤ now then
      { count := 0, resetAt := now + RATE_LIMIT_WINDOW }
    else record
  let record := { record with count := record.count + 1 }
  ({ allowed := record.count ≤ RATE_LIMIT_MAX_REQUESTS
     retryAfter := max 0 ((record.resetAt - now + 999) / 1000) },
   record)

/-- The 429 response produced by `rateLimitMiddleware`: a `Retry-After`
header (`String(result.retryAfter)`) and a `retryAfter` JSON body field. -/
structure RateLimitRejection where
  status : Nat
  retryAfterHeader : String
  retryAfterBody : Nat
  deriving Repr, DecidableEq

/-- `rateLimitMiddleware` (src/server.js lines 100-111) on one identity's
record: `none` in the first component means the middleware called `next()`;
`some rej` is the 429 rejection. -/
def rateLimitMiddleware (stored : Option RateRecord) (now : Nat) :
    Option RateLimitRejection × RateRecord :=
  let result := checkRateLimit stored now
  (if result.1.allowed then none
   else some { status := 429
               retryAfterHeader := toString result.1.retryAfter
               retryAfterBody := result.1.retryAfter },
   result.2)

/-- Folding `checkRateLimit` over a sequence of request times from one
identity: the record evolution `rateLimitMap` sees for that key. -/
def processRequests (stored : Option RateRecord) (times : List Nat) : Option RateRecord :=
  times.foldl (fun r t => some (checkRateLimit r t).2) stored

/-! ## Authorization (src/server.js lines 19-59) -/

/-- Server-side configuration read at startup: `process.env.MONITOR_API_TOKEN`
(raw, trimmed on use) and `process.env.NODE_ENV`. -/
structure AuthEnv where
  rawToken : String
  nodeEnv : String
  deriving Repr, DecidableEq

/-- The request data `requireApiToken` inspects.  Absent headers are the
empty string (the code defaults each header with `|| ''`). -/
structure AuthRequest where
  remoteAddress : String
  xAuthUser : String
  xApiToken : String
  authorization : String
  deriving Repr, DecidableEq

/-- Outcome of an admission middleware: pass to the next handler, or respond
with an error status and message. -/
inductive AuthOutcome where
  | next
  | reject (status : Nat) (message : String)
  deriving Repr, DecidableEq

/-- JavaScript `String.prototype.trim`: strip leading and trailing
whitespace. -/
def jsTrim (s : String) : String :=
  ⟨((s.data.dropWhile Char.isWhitespace).reverse.dropWhile Char.isWhitespace).reverse⟩

/-- `requireApiToken(req, res, next)` (src/server.js lines 27-59).
`API_TOKEN = rawToken.trim()`, `HAS_API_TOKEN = Boolean(API_TOKEN)`. -/
def requireApiToken (env : AuthEnv) (req : AuthRequest) : AuthOutcome :=
  let API_TOKEN := jsTrim env.rawToken
  let isLocal := req.remoteAddress = "127.0.0.1" ∨ req.remoteAddress = "::1"
  if isLocal ∧ env.nodeEnv = "development" then .next
  else if req.xAuthUser ≠ "" then .next
  else if API_TOKEN = "" then .reject 503 "MONITOR_API_TOKEN no configurado"
  else
    let bearer :=
      if req.authorization.startsWith "Bearer " then jsTrim (req.authorization.drop 7)
      else ""
    if req.xApiToken ≠ API_TOKEN ∧ bearer ≠ API_TOKEN then
      .reject 401 "Token invalido"
    else .next

/-! ## Metrics computation and cache (src/server.js lines 154-238, 281-292) -/

/-- `Math.round` on an exact value: round half toward positive infinity. -/
def jsRound (q : ℚ) : ℤ := ⌊q + 1 / 2⌋

/-- `x.toFixed(1)` for a nonnegative exact value: one decimal digit,
half rounded up. -/
def toFixed1 (q : ℚ) : String :=
  let t := ⌊q * 10 + 1 / 2⌋
  toString (t / 10) ++ "." ++ toString (t % 10)

/-- `formatUptime(seconds)` (src/server.js lines 281-292). -/
def formatUptime (seconds : Nat) : String :=
  let days := seconds / 86400
  let hours := seconds % 86400 / 3600
  let minutes := seconds % 3600 / 60
  if days > 0 then
    toString days ++ "d " ++ toString hours ++ "h " ++ toString minutes ++ "m"
  else if hours > 0 then
    toString hours ++ "h " ++ toString minutes ++ "m"
  else
    toString minutes ++ "m"

/-- One filesystem entry reported by `si.fsSize()`: mount point, total size
and available bytes, and used percentage `use`. -/
structure FsEntry where
  mount : String
  size : ℚ
  available : ℚ
  use : ℚ
  deriving Repr, DecidableEq

/-- The host readings one recomputation consumes: `si.currentLoad()`
(`currentLoad` value and `cpus` array length), `si.mem()` (`total`,
`available` bytes), `si.fsSize()`, and `si.time().uptime`. -/
structure HostSample where
  currentLoad : ℚ
  cpuCores : Nat
  memTotal : ℚ
  memAvailable : ℚ
  fsSize : List FsEntry
  uptimeSeconds : Nat
  deriving Repr, DecidableEq

/-- The object `calculateMetrics` returns (and the cache stores): the
`MetricsSnapshot` of the spec.  `timestamp` is the spec's
`computedAtMillis`. -/
structure MetricsSnapshot where
  cpu : ℤ
  cpuLoad : String
  memory : ℤ
  memoryUsed : String
  memoryTotal : String
  disk : ℤ
  diskUsed : String
  diskTotal : String
  uptime : String
  timestamp : Nat
  deriving Repr, DecidableEq

/-- `calculateMetrics()` (src/server.js lines 162-205) on a host sample,
with `Date.now()` inside the function equal to the handler's `now` (the
sequential model samples the clock once per call). -/
def calculateMetrics (h : HostSample) (now : Nat) : MetricsSnapshot :=
  let uptime := formatUptime h.uptimeSeconds
  let cpuUsage := h.currentLoad
  let memoryUsedBytes := h.memTotal - h.memAvailable
  let memoryUsedGB := toFixed1 (memoryUsedBytes / 1024 ^ 3)
  let memoryTotalGB := toFixed1 (h.memTotal / 1024 ^ 3)
  let memoryUsedPercent := memoryUsedBytes / h.memTotal * 100
  let mainDisk := ((h.fsSize.find? (fun d => d.mount = "/")).orElse (fun _ => h.fsSize.head?))
  let diskUsedGB :=
    match mainDisk with
    | some d => toFixed1 ((d.size - d.available) / 1024 ^ 3)
    | none => "0"
  let diskTotalGB :=
    match mainDisk with
    | some d => toFixed1 (d.size / 1024 ^ 3)
    | none => "0"
  let diskUsedPercent :=
    match mainDisk with
    | some d => d.use
    | none => 0
  let cpuLoadText :=
    toFixed1 cpuUsage ++ "%" ++
      (if h.cpuCores > 0 then " (" ++ toString h.cpuCores ++ " cores)" else "")
  { cpu := jsRound cpuUsage
    cpuLoad := cpuLoadText
    memory := jsRound memoryUsedPercent
    memoryUsed := memoryUsedGB
    memoryTotal := memoryTotalGB
    disk := jsRound diskUsedPercent
    diskUsed := diskUsedGB
    diskTotal := diskTotalGB
    uptime := uptime
    timestamp := now }

/-- `CACHE_TTL = 2500` milliseconds. -/
def CACHE_TTL : Nat := 2500

/-- The single-slot cache `metricsCache = {data, timestamp}`;
`data = none` models `data: null`. -/
structure MetricsCache where
  data : Option MetricsSnapshot
  timestamp : Nat
  deriving Repr, DecidableEq

/-- The initial cache state `{data: null, timestamp: 0}`. -/
def metricsCache0 : MetricsCache := { data := none, timestamp := 0 }

/-- The 500 response body of the metrics handler's `catch` block: `message`
carries the internal error text only in development mode. -/
structure MetricsErrorResponse where
  status : Nat
  error : String
  message : Option String
  deriving Repr, DecidableEq

/-- The `GET /api/metrics` handler (src/server.js lines 208-238), after the
rate-limit and token middlewares have passed.  `now = Date.now()`;
`host` is the outcome of awaiting the `systeminformation` reads — `.error e`
models those reads throwing with message `e`.  Returns the response and the
cache state the handler leaves behind. -/
def getMetrics (cache : MetricsCache) (now : Nat) (dev : Bool)
    (host : Except String HostSample) :
    Except MetricsErrorResponse MetricsSnapshot × MetricsCache :=
  match cache.data with
  | some d =>
      if now - cache.timestamp < CACHE_TTL then
        (.ok d, cache)
      else
        match host with
        | .ok h =>
            let data := calculateMetrics h now
            (.ok data, { data := some data, timestamp := now })
        | .error e =>
            (.error { status := 500
                      error := "Error obteniendo métricas del sistema"
                      message := if dev then some e else none }, cache)
  | none =>
      match host with
      | .ok h =>
          let data := calculateMetrics h now
          (.ok data, { data := some data, timestamp := now })
      | .error e =>
          (.error { status := 500
                    error := "Error obteniendo métricas del sistema"
                    message := if dev then some e else none }, cache)

/-- A cache state is well formed when the stored snapshot's `timestamp`
(`Date.now()` inside `calculateMetrics`) equals the slot's `timestamp`
(the handler's `now`): true of every state `getMetrics` produces. -/
def goodCache (c : MetricsCache) : Prop :=
  ∀ d, c.data = some d → d.timestamp = c.timestamp

/-! ## Log pagination

Modelled from the spec: the backend under `src/` has no `/api/logs` route —
such requests fall through to the 404 catch-all (src/server.js lines
256-261) — so the Log Pagination Service operation `getPage` of spec §4.2
is modelled from the spec's words.  A log source is its sequence of lines;
the store maps known source ids to their lines and is `none` on unknown
ids (the fixed allow-list). -/

/-- Modelled from the spec: the `LogPage` record of spec §3 — a contiguous
slice of a named log source. -/
structure LogPage where
  sourceId : String
  lines : List String
  requestedOffset : Nat
  effectiveLimit : Nat
  nextOffset : Nat
  hasMore : Bool
  deriving Repr, DecidableEq

/-- Modelled from the spec: failure taxonomy of `getPage` (spec §4.2, §7). -/
inductive LogError where
  | UnknownSource
  deriving Repr, DecidableEq

/-- Modelled from the spec: the safe maximum page size (spec §4.2,
"clamped to a safe maximum (e.g., 300)"). -/
def MAX_LOG_LIMIT : Nat := 300

/-- Modelled from the spec: `getPage(sourceId, offset, limit, order=asc)`
(spec §4.2).  Unknown sources fail with `UnknownSource`; `limit` is clamped;
`order=asc` returns lines from `offset` forward, oldest-first;
`nextOffset = offset + returned-line-count`; `hasMore` is true iff more
lines exist beyond `nextOffset` at read time. -/
def getPage (store : String → Option (List String)) (sourceId : String)
    (offset limit : Nat) : Except LogError LogPage :=
  match store sourceId with
  | none => .error .UnknownSource
  | some src =>
      let lim := min limit MAX_LOG_LIMIT
      let lines := (src.drop offset).take lim
      .ok { sourceId := sourceId
            lines := lines
            requestedOffset := offset
            effectiveLimit := lim
            nextOffset := offset + lines.length
            hasMore := offset + lines.length < src.length }

/-! ## Raw (pre-rounding) percentages and concrete samples -/

/-- The unrounded memory percentage `calculateMetrics` rounds:
`(mem.total - mem.available) / mem.total * 100`. -/
def rawMemoryPercent (h : HostSample) : ℚ :=
  (h.memTotal - h.memAvailable) / h.memTotal * 100

/-- The unrounded disk percentage `calculateMetrics` rounds: the `use`
field of the main disk (root mount, else the first filesystem), 0 when
no filesystem is reported. -/
def rawDiskPercent (h : HostSample) : ℚ :=
  match (h.fsSize.find? (fun d => d.mount = "/")).orElse (fun _ => h.fsSize.head?) with
  | some d => d.use
  | none => 0

/-- Host sample of the spec's worked example: 16 GB total, 8 GB available. -/
def sampleMem16 : HostSample :=
  { currentLoad := 20
    cpuCores := 4
    memTotal := 16000000000
    memAvailable := 8000000000
    fsSize := [{ mount := "/", size := 100, available := 40, use := 60 }]
    uptimeSeconds := 3661 }

/-- Host sample with a non-integer memory percentage:
used = 7e9 of 12e9 bytes, i.e. 175/3 ≈ 58.33 percent. -/
def sampleMem12 : HostSample :=
  { currentLoad := 20
    cpuCores := 4
    memTotal := 12000000000
    memAvailable := 5000000000
    fsSize := [{ mount := "/", size := 100, available := 40, use := 60 }]
    uptimeSeconds := 59 }

/-- A production environment with `MONITOR_API_TOKEN` unset. -/
def authEnvNoToken : AuthEnv := { rawToken := "", nodeEnv := "production" }

/-- A non-local request carrying a trusted-identity `X-Auth-User` header
and no token headers. -/
def authReqTrusted : AuthRequest :=
  { remoteAddress := "203.0.113.9", xAuthUser := "ops", xApiToken := "", authorization := "" }

/-- A cache slot filled by a recompute at `now = 1000`. -/
def snapA : MetricsSnapshot := calculateMetrics sampleMem16 1000

/-- The cache state left behind by that recompute. -/
def cacheA : MetricsCache := { data := some snapA, timestamp := 1000 }

/-- A log store with one known source of 150 lines. -/
def logStore : String → Option (List String) :=
  fun s => if s = "nginx" then some (List.replicate 150 "line") else none

/-! ## Theorems -/

/-- Evaluation rule for `jsRound`: the rounded value is the integer `z`
whenever `q + 1/2` lies in `[z, z + 1)`. -/
theorem jsRound_eq (q : ℚ) (z : ℤ) (h1 : (z : ℚ) ≤ q + 1 / 2) (h2 : q + 1 / 2 < z + 1) :
    jsRound q = z := by
  unfold jsRound
  exact Int.floor_eq_iff.mpr ⟨h1, h2⟩

/-- C5: every request carrying a non-empty `X-Auth-User` header is admitted
by `requireApiToken`, in every configuration — token configured or not,
development mode or not, token headers absent or wrong. -/
theorem auth_user_bypass (env : AuthEnv) (req : AuthRequest)
    (h : req.xAuthUser ≠ "") :
    requireApiToken env req = .next := by
  simp only [requireApiToken]
  split
  · rfl
  · simp [h]

/-- C5 witness: a concrete non-local production request with a wrong token
but a non-empty `X-Auth-User` header is admitted. -/
theorem auth_user_bypass_witness :
    ({ remoteAddress := "203.0.113.9", xAuthUser := "ops", xApiToken := "wrong",
       authorization := "" } : AuthRequest).xAuthUser ≠ "" ∧
    requireApiToken { rawToken := "secret", nodeEnv := "production" }
      { remoteAddress := "203.0.113.9", xAuthUser := "ops", xApiToken := "wrong",
        authorization := "" } = .next :=
  ⟨by decide,
   auth_user_bypass { rawToken := "secret", nodeEnv := "production" }
     { remoteAddress := "203.0.113.9", xAuthUser := "ops", xApiToken := "wrong",
       authorization := "" } (by decide)⟩

/-- C3 counterexample: with no token configured and not in development mode, a
request carrying a trusted-identity `X-Auth-User` header is admitted — the
service does not fail with `ServiceUnavailable` on every request. -/
theorem no_token_fail_closed_counterexample :
    requireApiToken authEnvNoToken authReqTrusted = .next ∧
    (AuthOutcome.next ≠ .reject 503 "MONITOR_API_TOKEN no configurado") := by
  constructor
  · decide
  · decide

/-- C3 (amended): if no API token is configured and the service is not in
development mode, every request without a trusted-identity `X-Auth-User`
header fails with `ServiceUnavailable` (HTTP 503). -/
theorem no_token_fail_closed (env : AuthEnv) (req : AuthRequest)
    (htok : jsTrim env.rawToken = "") (hdev : env.nodeEnv ≠ "development")
    (hbypass : req.xAuthUser = "") :
    requireApiToken env req = .reject 503 "MONITOR_API_TOKEN no configurado" := by
  unfold requireApiToken
  rw [if_neg (by exact fun hc => hdev hc.2)]
  rw [if_neg (by simp [hbypass])]
  rw [if_pos htok]

/-- C3 witness: a concrete production request with no configured token and no
`X-Auth-User` header receives the 503. -/
theorem no_token_fail_closed_witness :
    jsTrim authEnvNoToken.rawToken = "" ∧ authEnvNoToken.nodeEnv ≠ "development" ∧
    requireApiToken authEnvNoToken
      { remoteAddress := "203.0.113.9", xAuthUser := "", xApiToken := "", authorization := "" } =
      .reject 503 "MONITOR_API_TOKEN no configurado" :=
  ⟨by decide, by decide,
   no_token_fail_closed authEnvNoToken
     { remoteAddress := "203.0.113.9", xAuthUser := "", xApiToken := "", authorization := "" }
     (by decide) (by decide) rfl⟩

/-- C9: for every non-negative uptime in seconds, the formatted label is
`"{d}d {h}h {m}m"` when days > 0, `"{h}h {m}m"` when hours > 0 and days = 0,
and `"{m}m"` otherwise; in particular 90061 s → `"1d 1h 1m"`,
3661 s → `"1h 1m"`, 59 s → `"0m"`. -/
theorem formatUptime_spec :
    (∀ s : Nat, 0 < s / 86400 →
      formatUptime s =
        toString (s / 86400) ++ "d " ++ toString (s % 86400 / 3600) ++ "h " ++
          toString (s % 3600 / 60) ++ "m") ∧
    (∀ s : Nat, s / 86400 = 0 → 0 < s % 86400 / 3600 →
      formatUptime s =
        toString (s % 86400 / 3600) ++ "h " ++ toString (s % 3600 / 60) ++ "m") ∧
    (∀ s : Nat, s / 86400 = 0 → s % 86400 / 3600 = 0 →
      formatUptime s = toString (s % 3600 / 60) ++ "m") ∧
    formatUptime 90061 = "1d 1h 1m" ∧ formatUptime 3661 = "1h 1m" ∧
    formatUptime 59 = "0m" := by
  refine ⟨?_, ?_, ?_, by decide, by decide, by decide⟩
  · intro s hd
    unfold formatUptime
    rw [if_pos hd]
  · intro s hd hh
    unfold formatUptime
    rw [if_neg (by omega), if_pos hh]
  · intro s hd hh
    unfold formatUptime
    rw [if_neg (by omega), if_neg (by omega)]

/-- C9 witness: the days branch instantiated at 90061 seconds. -/
theorem formatUptime_spec_witness :
    0 < 90061 / 86400 ∧
    formatUptime 90061 =
      toString (90061 / 86400) ++ "d " ++ toString (90061 % 86400 / 3600) ++ "h " ++
        toString (90061 % 3600 / 60) ++ "m" :=
  ⟨by decide, formatUptime_spec.1 90061 (by decide)⟩

/-- C10: the memory percentage of a snapshot is
`round((total - available) / total * 100)` in exact arithmetic; at
total = 16e9 and available = 8e9 bytes it is exactly 50. -/
theorem memoryPercent_round :
    (∀ (h : HostSample) (now : Nat), 0 < h.memTotal →
      (calculateMetrics h now).memory = jsRound (rawMemoryPercent h)) ∧
    (calculateMetrics sampleMem16 0).memory = 50 := by
  constructor
  · intro h now _
    rfl
  · show jsRound ((16000000000 - 8000000000 : ℚ) / 16000000000 * 100) = 50
    exact jsRound_eq _ 50 (by norm_num) (by norm_num)

/-- C10 witness: the general formula instantiated at the 16 GB sample. -/
theorem memoryPercent_round_witness :
    0 < sampleMem16.memTotal ∧
    (calculateMetrics sampleMem16 0).memory = jsRound (rawMemoryPercent sampleMem16) :=
  ⟨by norm_num [sampleMem16], memoryPercent_round.1 sampleMem16 0 (by norm_num [sampleMem16])⟩

/-- On a cache miss (empty slot or TTL elapsed) with host reads succeeding,
the handler recomputes, stores the fresh snapshot stamped `now`, and
returns it. -/
theorem getMetrics_miss (c : MetricsCache) (now : Nat) (dev : Bool) (h : HostSample)
    (hmiss : c.data = none ∨ CACHE_TTL ≤ now - c.timestamp) :
    getMetrics c now dev (.ok h) =
      (.ok (calculateMetrics h now),
       { data := some (calculateMetrics h now), timestamp := now }) := by
  rcases hmiss with hnone | hstale
  · simp [getMetrics, hnone]
  · cases hc : c.data with
    | none => simp [getMetrics, hc]
    | some d => simp [getMetrics, hc, Nat.not_lt.mpr hstale]

/-- The initial cache state is well formed. -/
theorem goodCache_metricsCache0 : goodCache metricsCache0 := by
  intro d hd
  simp [metricsCache0] at hd

/-- Every cache state the handler produces is well formed: the stored
snapshot is stamped with the slot's own timestamp. -/
theorem goodCache_preserved (c : MetricsCache) (now : Nat) (dev : Bool)
    (host : Except String HostSample) (hc : goodCache c) :
    goodCache (getMetrics c now dev host).2 := by
  unfold getMetrics
  cases hd : c.data with
  | none =>
    cases host with
    | ok h =>
      intro d hsome
      simp only at hsome
      injection hsome with h1
      rw [← h1]
      rfl
    | error e => exact hc
  | some d0 =>
    by_cases hfresh : now - c.timestamp < CACHE_TTL
    · simp only [hfresh, if_true]
      exact hc
    · simp only [hfresh, if_false]
      cases host with
      | ok h =>
        intro d hsome
        simp only at hsome
        injection hsome with h1
        rw [← h1]
        rfl
      | error e => exact hc

/-- C1: a `getMetrics` call while the cached snapshot is younger than the
2.5 s TTL returns that snapshot unchanged (same `computedAtMillis`, no
recomputation, cache state untouched); the first call at or after TTL
expiry recomputes, and the new snapshot's `computedAtMillis` is strictly
greater than the previous one's. -/
theorem metrics_cache_ttl :
    (∀ (c : MetricsCache) (now : Nat) (dev : Bool) (host : Except String HostSample)
        (d : MetricsSnapshot), c.data = some d → now - c.timestamp < CACHE_TTL →
        getMetrics c now dev host = (.ok d, c)) ∧
    (∀ (c : MetricsCache) (now : Nat) (dev : Bool) (h : HostSample) (d : MetricsSnapshot),
        goodCache c → c.data = some d → CACHE_TTL ≤ now - c.timestamp →
        getMetrics c now dev (.ok h) =
          (.ok (calculateMetrics h now),
           { data := some (calculateMetrics h now), timestamp := now }) ∧
        d.timestamp < (calculateMetrics h now).timestamp) := by
  constructor
  · intro c now dev host d hd hfresh
    simp [getMetrics, hd, hfresh]
  · intro c now dev h d hgood hd hstale
    refine ⟨getMetrics_miss c now dev h (Or.inr hstale), ?_⟩
    have h1 : d.timestamp = c.timestamp := hgood d hd
    have h2 : (calculateMetrics h now).timestamp = now := rfl
    have h3 : 2500 ≤ now - c.timestamp := hstale
    rw [h1, h2]
    omega

/-- C1 witness: the cache filled at t = 1000 is served unchanged at
t = 2000 (within TTL) and replaced at t = 4000 (past TTL) by a snapshot
with a strictly larger timestamp. -/
theorem metrics_cache_ttl_witness :
    getMetrics cacheA 2000 false (.ok sampleMem12) = (.ok snapA, cacheA) ∧
    (getMetrics cacheA 4000 false (.ok sampleMem12) =
       (.ok (calculateMetrics sampleMem12 4000),
        { data := some (calculateMetrics sampleMem12 4000), timestamp := 4000 }) ∧
     snapA.timestamp < (calculateMetrics sampleMem12 4000).timestamp) :=
  ⟨metrics_cache_ttl.1 cacheA 2000 false (.ok sampleMem12) snapA rfl (by decide),
   metrics_cache_ttl.2 cacheA 4000 false sampleMem12 snapA
     (fun d hd => by injection hd with h1; rw [← h1]; rfl) rfl (by decide)⟩

/-- C6 counterexample: with 7e9 of 12e9 bytes used (raw percentage 175/3),
the recompute at t = 1000 leaves a cache slot whose `memory` field is the
rounded integer 58 — the cache does not retain the unrounded value. -/
theorem cache_full_precision_counterexample :
    Option.map MetricsSnapshot.memory
      (getMetrics metricsCache0 1000 false (.ok sampleMem12)).2.data = some 58 ∧
    ((58 : ℚ) ≠ rawMemoryPercent sampleMem12) := by
  constructor
  · have h58 : (calculateMetrics sampleMem12 1000).memory = 58 := by
      show jsRound ((12000000000 - 5000000000 : ℚ) / 12000000000 * 100) = 58
      exact jsRound_eq _ 58 (by norm_num) (by norm_num)
    show Option.map MetricsSnapshot.memory (some (calculateMetrics sampleMem12 1000)) = some 58
    rw [Option.map_some', h58]
  · show (58 : ℚ) ≠ (12000000000 - 5000000000 : ℚ) / 12000000000 * 100
    norm_num

/-- C6 (amended): rounding is applied inside `calculateMetrics`, before the
cache is written — a recompute stores in the cache slot exactly the snapshot
it serves, whose cpu, memory and disk percentage fields are the integer
roundings of the raw values. -/
theorem cache_stores_rounded (h : HostSample) (now : Nat) (dev : Bool) (c : MetricsCache)
    (hmiss : c.data = none ∨ CACHE_TTL ≤ now - c.timestamp) :
    (getMetrics c now dev (.ok h)).2.data = some (calculateMetrics h now) ∧
    (getMetrics c now dev (.ok h)).1 = .ok (calculateMetrics h now) ∧
    (calculateMetrics h now).cpu = jsRound h.currentLoad ∧
    (calculateMetrics h now).memory = jsRound (rawMemoryPercent h) ∧
    (calculateMetrics h now).disk = jsRound (rawDiskPercent h) := by
  rw [getMetrics_miss c now dev h hmiss]
  exact ⟨rfl, rfl, rfl, rfl, rfl⟩

/-- C6 (amended) witness: the recompute on the empty cache at t = 1000. -/
theorem cache_stores_rounded_witness :
    (getMetrics metricsCache0 1000 false (.ok sampleMem12)).2.data =
      some (calculateMetrics sampleMem12 1000) ∧
    (getMetrics metricsCache0 1000 false (.ok sampleMem12)).1 =
      .ok (calculateMetrics sampleMem12 1000) ∧
    (calculateMetrics sampleMem12 1000).cpu = jsRound sampleMem12.currentLoad ∧
    (calculateMetrics sampleMem12 1000).memory = jsRound (rawMemoryPercent sampleMem12) ∧
    (calculateMetrics sampleMem12 1000).disk = jsRound (rawDiskPercent sampleMem12) :=
  cache_stores_rounded sampleMem12 1000 false metricsCache0 (Or.inl rfl)

/-- C8: when the host reads fail during a recompute (cache empty or past
TTL), the handler answers the 500 `MetricsUnavailable` response — it does
not fall back to the stale snapshot — and leaves the cache slot unchanged. -/
theorem metrics_error_no_stale (c : MetricsCache) (now : Nat) (dev : Bool) (e : String)
    (hmiss : c.data = none ∨ CACHE_TTL ≤ now - c.timestamp) :
    getMetrics c now dev (.error e) =
      (.error { status := 500
                error := "Error obteniendo métricas del sistema"
                message := if dev then some e else none }, c) := by
  rcases hmiss with hnone | hstale
  · simp [getMetrics, hnone]
  · cases hc : c.data with
    | none => simp [getMetrics, hc]
    | some d => simp [getMetrics, hc, Nat.not_lt.mpr hstale]

/-- C8 witness: a failed recompute at t = 4000 over the stale cache filled
at t = 1000 returns the 500 response and leaves the cache as it was. -/
theorem metrics_error_no_stale_witness :
    getMetrics cacheA 4000 true (.error "boom") =
      (.error { status := 500
                error := "Error obteniendo métricas del sistema"
                message := some "boom" }, cacheA) :=
  metrics_error_no_stale cacheA 4000 true "boom" (Or.inr (by decide))

/-- One `checkRateLimit` step inside a live window (`now < resetAt`): the
count increments, the window is kept, and `retryAfter` is the ceiling of
the remaining milliseconds in seconds. -/
theorem checkRateLimit_noReset (c R now : Nat) (h : now < R) :
    checkRateLimit (some ⟨c, R⟩) now =
      ({ allowed := c + 1 ≤ RATE_LIMIT_MAX_REQUESTS
         retryAfter := max 0 ((R - now + 999) / 1000) },
       ⟨c + 1, R⟩) := by
  simp [checkRateLimit, Nat.not_le.mpr h]

/-- The first request from an identity creates the record
`{count: 1, resetAt: now + RATE_LIMIT_WINDOW}`. -/
theorem checkRateLimit_none_record (now : Nat) :
    (checkRateLimit none now).2 = ⟨1, now + RATE_LIMIT_WINDOW⟩ := by
  have h : ¬(now + RATE_LIMIT_WINDOW ≤ now) := by
    unfold RATE_LIMIT_WINDOW
    omega
  simp [checkRateLimit, h]

/-- Unfolding one step of `processRequests`. -/
theorem processRequests_cons (stored : Option RateRecord) (t : Nat) (ts : List Nat) :
    processRequests stored (t :: ts) =
      processRequests (some (checkRateLimit stored t).2) ts := rfl

/-- Requests all falling inside a live window only increment the count. -/
theorem processRequests_within (ts : List Nat) : ∀ (c R : Nat), (∀ t ∈ ts, t < R) →
    processRequests (some ⟨c, R⟩) ts = some ⟨c + ts.length, R⟩ := by
  induction ts with
  | nil => intro c R _; rfl
  | cons t ts ih =>
    intro c R hall
    have ht : t < R := hall t (by simp)
    rw [processRequests_cons, checkRateLimit_noReset c R t ht]
    rw [ih (c + 1) R (fun x hx => hall x (by simp [hx]))]
    simp [RateRecord.mk.injEq]
    omega

/-- A step that pushes the count over the quota is rejected by the
middleware with the ceiling-of-remaining-window retry delay. -/
theorem rateLimitMiddleware_over (c R now : Nat) (h : now < R)
    (hover : RATE_LIMIT_MAX_REQUESTS < c + 1) :
    (rateLimitMiddleware (some ⟨c, R⟩) now).1 =
      some { status := 429
             retryAfterHeader := toString (max 0 ((R - now + 999) / 1000))
             retryAfterBody := max 0 ((R - now + 999) / 1000) } := by
  unfold rateLimitMiddleware
  rw [checkRateLimit_noReset c R now h]
  simp [Nat.not_le.mpr hover]

/-- C2: starting from no record, with the first request at `t0` and all of
requests 2..99, the 100th (at `tA`) and the 101st (at `tB`) falling inside
the window `[t0, t0 + 60000)`, the 100th request is admitted and the 101st
is rejected with status 429 carrying `retryAfter` equal to the remaining
window time rounded up to whole seconds, identically in the `Retry-After`
header (as a string) and the `retryAfter` body field. -/
theorem rate_limit_quota_boundary (pre : List Nat) (t0 tA tB : Nat)
    (hlen : pre.length = 98)
    (hpre : ∀ t ∈ pre, t < t0 + RATE_LIMIT_WINDOW)
    (hA : tA < t0 + RATE_LIMIT_WINDOW) (hB : tB < t0 + RATE_LIMIT_WINDOW) :
    (checkRateLimit (processRequests none (t0 :: pre)) tA).1.allowed = true ∧
    (rateLimitMiddleware (some (checkRateLimit (processRequests none (t0 :: pre)) tA).2) tB).1 =
      some { status := 429
             retryAfterHeader := toString ((t0 + RATE_LIMIT_WINDOW - tB + 999) / 1000)
             retryAfterBody := (t0 + RATE_LIMIT_WINDOW - tB + 999) / 1000 } := by
  have hs : processRequests none (t0 :: pre) = some ⟨99, t0 + RATE_LIMIT_WINDOW⟩ := by
    rw [processRequests_cons, checkRateLimit_none_record t0]
    rw [processRequests_within pre 1 (t0 + RATE_LIMIT_WINDOW) hpre, hlen]
  have h100 : (checkRateLimit (processRequests none (t0 :: pre)) tA).2 =
      ⟨100, t0 + RATE_LIMIT_WINDOW⟩ := by
    rw [hs, checkRateLimit_noReset 99 _ tA hA]
  constructor
  · rw [hs, checkRateLimit_noReset 99 _ tA hA]
    rfl
  · rw [h100]
    rw [rateLimitMiddleware_over 100 _ tB hB (by decide)]
    simp [Nat.zero_max]

/-- C2 witness: 101 requests at concrete times inside one window. -/
theorem rate_limit_quota_boundary_witness :
    (List.replicate 98 0).length = 98 ∧
    (checkRateLimit (processRequests none (0 :: List.replicate 98 0)) 0).1.allowed = true ∧
    (rateLimitMiddleware
        (some (checkRateLimit (processRequests none (0 :: List.replicate 98 0)) 0).2) 0).1 =
      some { status := 429
             retryAfterHeader := toString ((0 + RATE_LIMIT_WINDOW - 0 + 999) / 1000)
             retryAfterBody := (0 + RATE_LIMIT_WINDOW - 0 + 999) / 1000 } :=
  ⟨by decide,
   (rate_limit_quota_boundary (List.replicate 98 0) 0 0 0 (by decide) (by decide)
     (by decide) (by decide)).1,
   (rate_limit_quota_boundary (List.replicate 98 0) 0 0 0 (by decide) (by decide)
     (by decide) (by decide)).2⟩

/-- C7: for every state of one identity's record, a request is rejected
exactly when the incremented count exceeds the configured maximum; and the
first request arriving at or after `windowResetAtMillis` resets the record —
count restarts from 0 (so it is 1 after counting that request, which is
admitted) and the reset time moves one full window ahead. -/
theorem rate_limit_invariant :
    (∀ (stored : Option RateRecord) (now : Nat),
       ((checkRateLimit stored now).1.allowed = false ↔
         RATE_LIMIT_MAX_REQUESTS < (checkRateLimit stored now).2.count)) ∧
    (∀ (rec : RateRecord) (now : Nat), rec.resetAt ≤ now →
       (checkRateLimit (some rec) now).2 =
         { count := 1, resetAt := now + RATE_LIMIT_WINDOW } ∧
       (checkRateLimit (some rec) now).1.allowed = true) := by
  constructor
  · intro stored now
    simp [checkRateLimit, decide_eq_false_iff_not, Nat.not_le]
  · intro rec now hreset
    constructor
    · simp [checkRateLimit, hreset]
    · simp [checkRateLimit, hreset]
      decide

/-- C7 witness: a record whose window expired at 500 ms, hit again at
500 ms: reset to count 1, admitted. -/
theorem rate_limit_invariant_witness :
    ({ count := 57, resetAt := 500 } : RateRecord).resetAt ≤ 500 ∧
    (checkRateLimit (some { count := 57, resetAt := 500 }) 500).2 =
      { count := 1, resetAt := 500 + RATE_LIMIT_WINDOW } ∧
    (checkRateLimit (some { count := 57, resetAt := 500 }) 500).1.allowed = true :=
  ⟨by decide,
   (rate_limit_invariant.2 { count := 57, resetAt := 500 } 500 (by decide)).1,
   (rate_limit_invariant.2 { count := 57, resetAt := 500 } 500 (by decide)).2⟩

/-- C4 (against `getPage` modelled from the spec — see its definition):
replaying `getPage` with the same offset and limit over an unchanged store
returns the identical page (same lines — no overlap, no shift); every
successful page satisfies `nextOffset = requestedOffset + len(lines)`; and
with at least 150 lines present, `offset=100, limit=50` yields 50 lines and
`nextOffset = 150`. -/
theorem log_page_idempotent :
    (∀ (store : String → Option (List String)) (sid : String) (off lim : Nat),
       getPage store sid off lim = getPage store sid off lim) ∧
    (∀ (store : String → Option (List String)) (sid : String) (off lim : Nat)
       (page : LogPage), getPage store sid off lim = .ok page →
       page.nextOffset = page.requestedOffset + page.lines.length ∧
       page.requestedOffset = off) ∧
    (∀ (store : String → Option (List String)) (sid : String) (src : List String),
       store sid = some src → 150 ≤ src.length →
       ∃ page, getPage store sid 100 50 = .ok page ∧
         page.lines.length = 50 ∧ page.nextOffset = 150) := by
  refine ⟨fun _ _ _ _ => rfl, ?_, ?_⟩
  · intro store sid off lim page hok
    unfold getPage at hok
    cases hsrc : store sid with
    | none =>
      rw [hsrc] at hok
      exact Except.noConfusion hok
    | some src =>
      rw [hsrc] at hok
      injection hok with h
      rw [← h]
      exact ⟨rfl, rfl⟩
  · intro store sid src hsrc hlen
    have hlines : ((src.drop 100).take (min 50 MAX_LOG_LIMIT)).length = 50 := by
      simp only [List.length_take, List.length_drop]
      unfold MAX_LOG_LIMIT
      omega
    refine ⟨{ sourceId := sid
              lines := (src.drop 100).take (min 50 MAX_LOG_LIMIT)
              requestedOffset := 100
              effectiveLimit := min 50 MAX_LOG_LIMIT
              nextOffset := 100 + ((src.drop 100).take (min 50 MAX_LOG_LIMIT)).length
              hasMore := 100 + ((src.drop 100).take (min 50 MAX_LOG_LIMIT)).length < src.length },
            ?_, hlines, ?_⟩
    · unfold getPage
      rw [hsrc]
    · simp [hlines]

/-- C4 witness: the 150-line store at offset 100, limit 50. -/
theorem log_page_idempotent_witness :
    logStore "nginx" = some (List.replicate 150 "line") ∧
    150 ≤ (List.replicate 150 "line").length ∧
    ∃ page, getPage logStore "nginx" 100 50 = .ok page ∧
      page.lines.length = 50 ∧ page.nextOffset = 150 :=
  ⟨by simp [logStore], by simp,
   log_page_idempotent.2.2 logStore "nginx" (List.replicate 150 "line")
     (by simp [logStore]) (by simp)⟩
